import Mathlib

/-!
Verification of the notebook pipeline of `data-science-on-aws`.

The repository consists of three Jupyter notebooks:

* a workshop setup notebook (`src/unnamed/part_001`) that pip/conda-installs
  pinned dependencies, stages datasets in S3 and persists handoff variables
  with `%store`;
* a fine-tuning / RLHF notebook (`src/unnamed/part_000`) that performs
  supervised fine-tuning of `google/flan-t5-base` on dialogue summarization,
  then loads a LoRA adapter, attaches a value head and detoxifies the model
  with PPO against a toxicity reward model;
* a data-quality notebook (`src/01c_Analyze_Data_Quality_ProcessingJob_Spark.ipynb`)
  that submits a Spark/Deequ SageMaker processing job and inspects its reports.

The notebooks are orchestration glue around external libraries.  The
development below shallowly embeds, in Lean, the Python functions that the
notebooks themselves define (`print_number_of_trainable_model_parameters`,
`tokenize_function`, `build_dataset`, `evaluate_toxicity`, `load_dataset`,
the PPO training loop) with every external library call (tokenizer, model
generation, reward pipeline, numpy `std`, pandas CSV parsing) kept as an
abstract function parameter, and transcribes the orchestration-level
structure of the notebooks (cell sequences, install commands, exception
handlers, `%store` channels) as concrete Lean data, against which the
claims are stated and proved.
-/

/-! ## Generic helpers -/

/-- Python slice `xs[-k:]`.  For `k = 0` Python returns the whole list
(`xs[-0:] = xs[0:] = xs`); for `k ≥ len xs` it also returns the whole list;
otherwise it returns the last `k` elements. -/
def lastSlice (k : Nat) (xs : List α) : List α :=
  if k = 0 then xs else xs.drop (xs.length - k)

/-- Hugging Face tokenization with `truncation=True, padding="max_length"`:
the token list is truncated to `maxLen` tokens and then padded with the
pad token up to exactly `maxLen` tokens. -/
def padTrunc (maxLen pad : Nat) (ts : List Nat) : List Nat :=
  ts.take maxLen ++ List.replicate (maxLen - ts.length) pad

theorem lastSlice_length_le {k : Nat} (hk : 0 < k) (xs : List α) :
    (lastSlice k xs).length ≤ k := by
  unfold lastSlice
  rw [if_neg (Nat.pos_iff_ne_zero.mp hk)]
  rw [List.length_drop]
  omega

theorem padTrunc_length (maxLen pad : Nat) (ts : List Nat) :
    (padTrunc maxLen pad ts).length = maxLen := by
  unfold padTrunc
  rw [List.length_append, List.length_take, List.length_replicate]
  omega

/-! ## `print_number_of_trainable_model_parameters`
(src/unnamed/part_000, lines 95–104, and its RLHF copy at lines 1628–1635,
which differs only in rendering the percentage with `:.2f` and a leading
newline).

A PyTorch model is abstracted as its list of named parameters; for each
parameter only `numel()` and `requires_grad` are relevant. -/

/-- One entry of `model.named_parameters()`: `numel` and `requires_grad`. -/
structure ModelParam where
  numel : Nat
  requires_grad : Bool
deriving DecidableEq, Repr

/-- The `all_model_params` accumulator: sum of `numel` over all parameters. -/
def allModelParams (ps : List ModelParam) : Nat :=
  (ps.map ModelParam.numel).sum

/-- The `trainable_model_params` accumulator: sum of `numel` over the
parameters with `requires_grad`. -/
def trainableModelParams (ps : List ModelParam) : Nat :=
  ((ps.filter ModelParam.requires_grad).map ModelParam.numel).sum

/-- The body of `print_number_of_trainable_model_parameters`.  The Python
expression `100 * trainable_model_params / all_model_params` is true
division and raises `ZeroDivisionError` when `all_model_params = 0`; the
embedding returns `none` in that case.  The float is modelled by the exact
rational it approximates. -/
def print_number_of_trainable_model_parameters (ps : List ModelParam) :
    Option String :=
  let trainable := trainableModelParams ps
  let total := allModelParams ps
  if total = 0 then none
  else some ("trainable model parameters: " ++ toString trainable ++
    "\nall model parameters: " ++ toString total ++
    "\npercentage of trainable model parameters: " ++
    toString (100 * (trainable : ℚ) / (total : ℚ)) ++ "%")

theorem trainableModelParams_le_allModelParams (ps : List ModelParam) :
    trainableModelParams ps ≤ allModelParams ps := by
  induction ps with
  | nil => simp [trainableModelParams, allModelParams]
  | cons p ps ih =>
    unfold trainableModelParams allModelParams at *
    by_cases h : p.requires_grad
    · simp [List.filter_cons, h]
      omega
    · simp [List.filter_cons, h]
      omega

/-- C9: for a model with at least one parameter in total,
`print_number_of_trainable_model_parameters` returns a formatted string and
the trainable count is bounded by the total count
(`0 ≤ trainable ≤ all`, the lower bound being trivial over `Nat`); for a
model with zero total parameters the unguarded division
`100 * trainable_model_params / all_model_params` divides by zero, i.e. the
embedded function hits its error branch and returns `none`. -/
theorem print_params_bounds_and_zero_division (ps : List ModelParam) :
    (allModelParams ps ≠ 0 →
      ∃ s, print_number_of_trainable_model_parameters ps = some s ∧
        trainableModelParams ps ≤ allModelParams ps) ∧
    (allModelParams ps = 0 →
      print_number_of_trainable_model_parameters ps = none) := by
  constructor
  · intro h
    unfold print_number_of_trainable_model_parameters
    simp only [h, if_false, reduceIte]
    exact ⟨_, rfl, trainableModelParams_le_allModelParams ps⟩
  · intro h
    unfold print_number_of_trainable_model_parameters
    simp [h]

/-! ## `tokenize_function` and the tokenized-dataset workflow
(src/unnamed/part_000, lines 172–193).

A Hugging Face dataset row is modelled as an association list from column
names to cell values (the schema of a `datasets.Dataset` is dynamic, and
`remove_columns` drops columns by name).  `dataset.map(tokenize_function,
batched=True)` applies the per-example transformation to each row in
order; the batched dict-of-lists form is row-wise equivalent. -/

/-- A cell of a dataset row: either a raw string column or a token-id
column produced by the tokenizer. -/
inductive Cell
  | str (s : String)
  | ids (ts : List Nat)
deriving DecidableEq, Repr

/-- A dataset row: column name to cell, in column order. -/
abbrev Row := List (String × Cell)

/-- The column names of a row. -/
def Row.colNames (r : Row) : List String := r.map Prod.fst

/-- Reading a string column (`example["dialogue"]`, `example["summary"]`). -/
def Row.getStr (r : Row) (c : String) : String :=
  match r.lookup c with
  | some (Cell.str s) => s
  | _ => ""

/-- The tokenizer of the notebook, abstracted: `encode` is the external
subword tokenizer, `maxLength`/`padToken` are its `model_max_length` and
pad token id. -/
structure HfTokenizer where
  encode : String → List Nat
  maxLength : Nat
  padToken : Nat

/-- `tokenizer(text, padding="max_length", truncation=True).input_ids`. -/
def HfTokenizer.encodeMaxLength (tk : HfTokenizer) (s : String) : List Nat :=
  padTrunc tk.maxLength tk.padToken (tk.encode s)

def start_prompt : String := "Summarize the following conversation.\n\n"

def end_prompt : String := "\n\nSummary: "

/-- `tokenize_function`: builds the instruction prompt around the dialogue,
tokenizes it into `input_ids`, and tokenizes the reference summary into
`labels`.  Assigning `example["input_ids"]`/`example["labels"]` adds the
two new columns to the row (the dialogsum rows have no such columns). -/
def tokenize_function (tk : HfTokenizer) (ex : Row) : Row :=
  ex ++
    [("input_ids", Cell.ids (tk.encodeMaxLength
        (start_prompt ++ ex.getStr "dialogue" ++ end_prompt))),
     ("labels", Cell.ids (tk.encodeMaxLength (ex.getStr "summary")))]

/-- `tokenized_datasets.remove_columns([...])`: drop the named columns from
every row. -/
def remove_columns (cols : List String) (rows : List Row) : List Row :=
  rows.map fun r => r.filter fun p => !(cols.contains p.1)

/-- The columns removed by the notebook after the map. -/
def removedColumns : List String := ["id", "topic", "dialogue", "summary"]

/-- `dataset.map(tokenize_function, batched=True)` followed by
`remove_columns(["id", "topic", "dialogue", "summary"])`. -/
def tokenizedDataset (tk : HfTokenizer) (rows : List Row) : List Row :=
  remove_columns removedColumns (rows.map (tokenize_function tk))

/-- `tokenized_datasets.filter(lambda example, index: index % 100 == 0,
with_indices=True)`: keep exactly the rows whose index is divisible
by 100. -/
def filterEvery100 (rows : List Row) : List Row :=
  (rows.enum.filter fun p => p.1 % 100 == 0).map Prod.snd

theorem enumFrom_filter_hundredth_get {α : Type} (xs : List α) (k j : Nat) :
    (((List.enumFrom k xs).filter fun p => p.1 % 100 == 0).map Prod.snd)[j]?
      = xs[100 * (j + (k + 99) / 100) - k]? := by
  induction xs generalizing k j with
  | nil => simp
  | cons x xs ih =>
    rw [List.enumFrom_cons, List.filter_cons]
    by_cases hk : k % 100 = 0
    · simp only [hk, Nat.zero_mod, beq_self_eq_true, if_true, List.map_cons]
      cases j with
      | zero =>
        have hidx : 100 * (0 + (k + 99) / 100) - k = 0 := by omega
        rw [hidx]
        simp
      | succ j =>
        have hidx : 100 * (j + 1 + (k + 99) / 100) - k
            = (100 * (j + (k + 1 + 99) / 100) - (k + 1)) + 1 := by omega
        rw [hidx, List.getElem?_cons_succ, List.getElem?_cons_succ]
        exact ih (k + 1) j
    · have hbeq : (k % 100 == 0) = false := by
        simp [hk]
      simp only [hbeq, if_false, Bool.false_eq_true, reduceIte]
      have hidx : 100 * (j + (k + 99) / 100) - k
          = (100 * (j + (k + 1 + 99) / 100) - (k + 1)) + 1 := by omega
      rw [hidx, List.getElem?_cons_succ]
      exact ih (k + 1) j

theorem remove_columns_not_mem (cols : List String) (rows : List Row) :
    ∀ r ∈ remove_columns cols rows, ∀ c ∈ cols, c ∉ r.colNames := by
  intro r hr c hc hmem
  unfold remove_columns at hr
  rcases List.mem_map.mp hr with ⟨r₀, _, hfilt⟩
  subst hfilt
  unfold Row.colNames at hmem
  rcases List.mem_map.mp hmem with ⟨p, hp, hfst⟩
  have hkeep := List.of_mem_filter hp
  subst hfst
  simp only [Bool.not_eq_true'] at hkeep
  exact (by simpa using hkeep : p.1 ∉ cols) hc

/-- C5: on any dataset whose rows follow the dialogsum schema
(`id`, `topic`, `dialogue`, `summary`), the map + `remove_columns`
workflow produces, at every index, a row holding exactly the two columns
`input_ids` (the max-length-padded, truncated tokenization of
`'Summarize the following conversation.\n\n' + dialogue + '\n\nSummary: '`)
and `labels` (the max-length-padded, truncated tokenization of the
reference summary); no row of the result retains an `id`, `topic`,
`dialogue` or `summary` column; and the subsequent indexed filter keeps
exactly the rows whose index is divisible by 100 (element `j` of the
filtered dataset is element `100 * j` of the tokenized dataset). -/
theorem tokenize_workflow_spec (tk : HfTokenizer) (rows : List Row)
    (hschema : ∀ r ∈ rows,
      Row.colNames r = ["id", "topic", "dialogue", "summary"]) :
    (∀ (i : Nat) (r : Row), rows[i]? = some r →
      (tokenizedDataset tk rows)[i]? = some
        [("input_ids", Cell.ids (tk.encodeMaxLength
            (start_prompt ++ r.getStr "dialogue" ++ end_prompt))),
         ("labels", Cell.ids (tk.encodeMaxLength (r.getStr "summary")))]) ∧
    (∀ r ∈ tokenizedDataset tk rows,
      "id" ∉ r.colNames ∧ "topic" ∉ r.colNames ∧
      "dialogue" ∉ r.colNames ∧ "summary" ∉ r.colNames) ∧
    (∀ j, (filterEvery100 (tokenizedDataset tk rows))[j]?
      = (tokenizedDataset tk rows)[100 * j]?) := by
  refine ⟨?_, ?_, ?_⟩
  · intro i r hi
    unfold tokenizedDataset remove_columns
    rw [List.map_map, List.getElem?_map, hi, Option.map_some']
    have hrmem : r ∈ rows := by
      have h := List.getElem?_eq_some.mp hi
      exact List.mem_iff_getElem.mpr ⟨i, h.1, h.2⟩
    have hcols := hschema r hrmem
    have hdrop : r.filter (fun p => !(removedColumns.contains p.1)) = [] := by
      rw [List.filter_eq_nil_iff]
      intro p hp
      have : p.1 ∈ Row.colNames r := List.mem_map_of_mem Prod.fst hp
      rw [hcols] at this
      simp only [Bool.not_eq_true', Bool.not_eq_false]
      simpa [removedColumns] using this
    simp only [Function.comp_apply, tokenize_function, List.filter_append,
      hdrop, List.nil_append]
    rfl
  · intro r hr
    have h := remove_columns_not_mem removedColumns
      (rows.map (tokenize_function tk)) r hr
    exact ⟨h "id" (by simp [removedColumns]),
      h "topic" (by simp [removedColumns]),
      h "dialogue" (by simp [removedColumns]),
      h "summary" (by simp [removedColumns])⟩
  · intro j
    have h := enumFrom_filter_hundredth_get (tokenizedDataset tk rows) 0 j
    simpa [filterEvery100, List.enum] using h

/-- Witness for C5: a one-row dataset following the dialogsum schema. -/
theorem tokenize_workflow_spec_witness :
    (∀ r ∈ [[("id", Cell.str "1"), ("topic", Cell.str "t"),
        ("dialogue", Cell.str "d"), ("summary", Cell.str "s")]],
      Row.colNames r = ["id", "topic", "dialogue", "summary"]) ∧
    ((∀ (i : Nat) (r : Row),
      [[("id", Cell.str "1"), ("topic", Cell.str "t"),
        ("dialogue", Cell.str "d"), ("summary", Cell.str "s")]][i]?
          = some r →
      (tokenizedDataset ⟨fun s => [s.length], 3, 0⟩
        [[("id", Cell.str "1"), ("topic", Cell.str "t"),
          ("dialogue", Cell.str "d"), ("summary", Cell.str "s")]])[i]?
        = some
        [("input_ids", Cell.ids ((⟨fun s => [s.length], 3, 0⟩ :
            HfTokenizer).encodeMaxLength
            (start_prompt ++ r.getStr "dialogue" ++ end_prompt))),
         ("labels", Cell.ids ((⟨fun s => [s.length], 3, 0⟩ :
            HfTokenizer).encodeMaxLength (r.getStr "summary")))]) ∧
    (∀ r ∈ tokenizedDataset ⟨fun s => [s.length], 3, 0⟩
        [[("id", Cell.str "1"), ("topic", Cell.str "t"),
          ("dialogue", Cell.str "d"), ("summary", Cell.str "s")]],
      "id" ∉ r.colNames ∧ "topic" ∉ r.colNames ∧
      "dialogue" ∉ r.colNames ∧ "summary" ∉ r.colNames) ∧
    (∀ j, (filterEvery100 (tokenizedDataset ⟨fun s => [s.length], 3, 0⟩
        [[("id", Cell.str "1"), ("topic", Cell.str "t"),
          ("dialogue", Cell.str "d"), ("summary", Cell.str "s")]]))[j]?
      = (tokenizedDataset ⟨fun s => [s.length], 3, 0⟩
        [[("id", Cell.str "1"), ("topic", Cell.str "t"),
          ("dialogue", Cell.str "d"), ("summary", Cell.str "s")]])[100 * j]?))
    :=
  ⟨by decide,
   tokenize_workflow_spec ⟨fun s => [s.length], 3, 0⟩
     [[("id", Cell.str "1"), ("topic", Cell.str "t"),
       ("dialogue", Cell.str "d"), ("summary", Cell.str "s")]]
     (by decide)⟩

/-! ## `build_dataset` (src/unnamed/part_000, lines 1550–1594).

A dialogsum record is abstracted to its fields; the tokenizer of the RLHF
notebook (`tokenizer.encode` / `tokenizer.decode`, no padding) is kept as
an abstract pair of functions.  `train_test_split(test_size=0.2,
shuffle=False)` splits the dataset deterministically: the train part is
the initial segment and the test part the final segment, in order (the
number of test rows, `ceil(0.2 * n)` in the library, never appears in the
claim; the embedding uses `ceil(n / 5)`). -/

structure RawSample where
  id : String
  topic : String
  dialogue : String
  summary : String
deriving DecidableEq, Repr

/-- A sample after `tokenize`: the original fields plus the `input_ids`
and `query` columns that the function assigns. -/
structure BuiltSample where
  base : RawSample
  input_ids : List Nat
  query : String
deriving DecidableEq, Repr

/-- The RLHF notebook's tokenizer, abstracted. -/
structure TokEnv where
  encode : String → List Nat
  decode : List Nat → String

/-- The instruction wrapper of `build_dataset.tokenize`: the f-string
`f"""\nSummarize the following conversation.\n\n{dialogue}\n\nSummary:\n"""`. -/
def ppoPrompt (dialogue : String) : String :=
  "\nSummarize the following conversation.\n\n" ++ dialogue ++
    "\n\nSummary:\n"

/-- The dialogue-length predicate of the `dataset.filter` call:
`len(x["dialogue"]) > input_min_text_length and
 len(x["dialogue"]) <= input_max_text_length`. -/
def lengthFilter (minLen maxLen : Nat) (x : RawSample) : Bool :=
  decide (minLen < x.dialogue.length) && decide (x.dialogue.length ≤ maxLen)

/-- The `tokenize` closure: `sample["input_ids"] = tokenizer.encode(prompt)`
and `sample["query"] = tokenizer.decode(sample["input_ids"])`. -/
def ppoTokenize (env : TokEnv) (x : RawSample) : BuiltSample :=
  let ids := env.encode (ppoPrompt x.dialogue)
  ⟨x, ids, env.decode ids⟩

/-- `build_dataset`: filter by dialogue length, tokenize each sample, and
split into (train, test) with `test_size=0.2, shuffle=False`. -/
def build_dataset (env : TokEnv) (raw : List RawSample)
    (input_min_text_length input_max_text_length : Nat) :
    List BuiltSample × List BuiltSample :=
  let filtered := raw.filter
    (lengthFilter input_min_text_length input_max_text_length)
  let tokenized := filtered.map (ppoTokenize env)
  let nTest := (tokenized.length + 4) / 5
  let nTrain := tokenized.length - nTest
  (tokenized.take nTrain, tokenized.drop nTrain)

/-- C10: every example retained by `build_dataset` has a dialogue length
strictly above `input_min_text_length` and at most
`input_max_text_length`; each retained example's `input_ids` is the token
encoding of the instruction-wrapped prompt and its `query` is the decoding
of those ids; and the train and test parts, concatenated, are exactly the
tokenized filtered examples in their original order (the split is a pure
function of the input, hence deterministic, and order-preserving). -/
theorem build_dataset_spec (env : TokEnv) (raw : List RawSample)
    (minLen maxLen : Nat) :
    (∀ s ∈ (build_dataset env raw minLen maxLen).1 ++
        (build_dataset env raw minLen maxLen).2,
      minLen < s.base.dialogue.length ∧
      s.base.dialogue.length ≤ maxLen ∧
      s.input_ids = env.encode (ppoPrompt s.base.dialogue) ∧
      s.query = env.decode s.input_ids) ∧
    (build_dataset env raw minLen maxLen).1 ++
        (build_dataset env raw minLen maxLen).2 =
      (raw.filter (lengthFilter minLen maxLen)).map (ppoTokenize env) := by
  have hsplit : (build_dataset env raw minLen maxLen).1 ++
      (build_dataset env raw minLen maxLen).2 =
      (raw.filter (lengthFilter minLen maxLen)).map (ppoTokenize env) := by
    unfold build_dataset
    exact List.take_append_drop _ _
  refine ⟨?_, hsplit⟩
  intro s hs
  rw [hsplit] at hs
  rcases List.mem_map.mp hs with ⟨x, hx, himg⟩
  have hpred := List.of_mem_filter hx
  unfold lengthFilter at hpred
  rw [Bool.and_eq_true, decide_eq_true_eq, decide_eq_true_eq] at hpred
  subst himg
  exact ⟨hpred.1, hpred.2, rfl, rfl⟩

/-- Witness for C10: a two-sample dataset where only the longer dialogue
passes the length filter. -/
theorem build_dataset_spec_witness :
    (∀ s ∈ (build_dataset ⟨fun s => [s.length], fun _ => "q"⟩
        [⟨"1", "t", "abcdef", "s"⟩, ⟨"2", "u", "ab", "v"⟩] 3 10).1 ++
        (build_dataset ⟨fun s => [s.length], fun _ => "q"⟩
        [⟨"1", "t", "abcdef", "s"⟩, ⟨"2", "u", "ab", "v"⟩] 3 10).2,
      3 < s.base.dialogue.length ∧
      s.base.dialogue.length ≤ 10 ∧
      s.input_ids = (fun s => [String.length s]) (ppoPrompt s.base.dialogue) ∧
      s.query = (fun _ => "q") s.input_ids) ∧
    (build_dataset ⟨fun s => [s.length], fun _ => "q"⟩
        [⟨"1", "t", "abcdef", "s"⟩, ⟨"2", "u", "ab", "v"⟩] 3 10).1 ++
        (build_dataset ⟨fun s => [s.length], fun _ => "q"⟩
        [⟨"1", "t", "abcdef", "s"⟩, ⟨"2", "u", "ab", "v"⟩] 3 10).2 =
      ([⟨"1", "t", "abcdef", "s"⟩, ⟨"2", "u", "ab", "v"⟩].filter
        (lengthFilter 3 10)).map
        (ppoTokenize ⟨fun s => [s.length], fun _ => "q"⟩) :=
  build_dataset_spec ⟨fun s => [s.length], fun _ => "q"⟩
    [⟨"1", "t", "abcdef", "s"⟩, ⟨"2", "u", "ab", "v"⟩] 3 10

/-! ## `evaluate_toxicity` (src/unnamed/part_000, lines 1900–1936).

The loop `for i, sample in tqdm(enumerate(dataset))` reads
`sample["query"]`, breaks when `i > num_samples`, otherwise tokenizes the
query, generates a response with the fixed generation config, decodes it,
scores `input_text + " " + generated_text` with the toxicity evaluator and
extends the score list; finally it returns `(np.mean(toxicities),
np.std(toxicities))`.  The external calls (tokenizer, `model.generate`,
`toxicity_evaluator.compute`, numpy `std` — whose value involves a real
square root) are abstract; `np.mean` is the exact rational mean. -/

structure ToxSample where
  query : String
deriving DecidableEq, Repr

structure ToxEnv where
  encode : String → List Nat
  gen : List Nat → List Nat
  decode : List Nat → String
  toxScores : String → List ℚ
  std : List ℚ → ℚ

/-- `np.mean` over the collected scores, idealized as the exact rational. -/
def npMean (xs : List ℚ) : ℚ := xs.sum / (xs.length : ℚ)

/-- The per-sample body of the loop: generate a response for the query and
score the concatenation `input_text + " " + generated_text`; the evaluator
returns a list of toxicity scores (`toxicity_score["toxicity"]`). -/
def responseScores (env : ToxEnv) (s : ToxSample) : List ℚ :=
  env.toxScores (s.query ++ " " ++ env.decode (env.gen (env.encode s.query)))

/-- The enumerated loop with its `if i > num_samples: break`. -/
def collectToxicities (env : ToxEnv) (num_samples : Nat) :
    List (Nat × ToxSample) → List ℚ
  | [] => []
  | (i, s) :: rest =>
    if num_samples < i then []
    else responseScores env s ++ collectToxicities env num_samples rest

/-- `evaluate_toxicity`: run the loop over the enumerated dataset, then
return the pair `(np.mean(toxicities), np.std(toxicities))`. -/
def evaluate_toxicity (env : ToxEnv) (dataset : List ToxSample)
    (num_samples : Nat) : ℚ × ℚ :=
  let toxicities := collectToxicities env num_samples dataset.enum
  (npMean toxicities, env.std toxicities)

theorem collectToxicities_enumFrom (env : ToxEnv) (n : Nat) :
    ∀ (xs : List ToxSample) (k : Nat),
      collectToxicities env n (List.enumFrom k xs)
        = ((xs.take (n + 1 - k)).map (responseScores env)).flatten := by
  intro xs
  induction xs with
  | nil => intro k; simp [collectToxicities]
  | cons x xs ih =>
    intro k
    rw [List.enumFrom_cons]
    unfold collectToxicities
    by_cases hk : n < k
    · rw [if_pos hk]
      have : n + 1 - k = 0 := by omega
      rw [this]
      simp
    · rw [if_neg hk, ih (k + 1)]
      have : n + 1 - k = (n + 1 - (k + 1)) + 1 := by omega
      rw [this, List.take_succ_cons, List.map_cons, List.flatten_cons]

/-- C8: when the dataset holds at least `num_samples + 2` samples, the
loop of `evaluate_toxicity` generates and scores exactly the samples at
indices `0` through `num_samples` inclusive (`num_samples + 1` of them:
the break on `i > num_samples` fires only after index `num_samples` has
been processed), and the function returns the pair
`(mean, standard deviation)` of exactly the scores collected from those
samples. -/
theorem evaluate_toxicity_spec (env : ToxEnv) (dataset : List ToxSample)
    (num_samples : Nat) (h : num_samples + 2 ≤ dataset.length) :
    collectToxicities env num_samples dataset.enum
      = ((dataset.take (num_samples + 1)).map (responseScores env)).flatten ∧
    (dataset.take (num_samples + 1)).length = num_samples + 1 ∧
    evaluate_toxicity env dataset num_samples
      = (npMean (((dataset.take (num_samples + 1)).map
            (responseScores env)).flatten),
         env.std (((dataset.take (num_samples + 1)).map
            (responseScores env)).flatten)) := by
  have hcollect : collectToxicities env num_samples dataset.enum
      = ((dataset.take (num_samples + 1)).map (responseScores env)).flatten := by
    have := collectToxicities_enumFrom env num_samples dataset 0
    simpa [List.enum] using this
  refine ⟨hcollect, ?_, ?_⟩
  · rw [List.length_take]
    omega
  · unfold evaluate_toxicity
    rw [hcollect]

/-- Witness for C8: three samples and `num_samples = 1` — exactly the two
samples at indices 0 and 1 are scored. -/
theorem evaluate_toxicity_spec_witness :
    1 + 2 ≤ [ToxSample.mk "a", ToxSample.mk "b", ToxSample.mk "c"].length ∧
    (collectToxicities ⟨fun s => [s.length], fun l => l, fun _ => "r",
        fun _ => [1], fun _ => 0⟩ 1
        [ToxSample.mk "a", ToxSample.mk "b", ToxSample.mk "c"].enum
      = (([ToxSample.mk "a", ToxSample.mk "b",
            ToxSample.mk "c"].take (1 + 1)).map
          (responseScores ⟨fun s => [s.length], fun l => l, fun _ => "r",
            fun _ => [1], fun _ => 0⟩)).flatten ∧
    ([ToxSample.mk "a", ToxSample.mk "b",
        ToxSample.mk "c"].take (1 + 1)).length = 1 + 1 ∧
    evaluate_toxicity ⟨fun s => [s.length], fun l => l, fun _ => "r",
        fun _ => [1], fun _ => 0⟩
        [ToxSample.mk "a", ToxSample.mk "b", ToxSample.mk "c"] 1
      = (npMean ((([ToxSample.mk "a", ToxSample.mk "b",
            ToxSample.mk "c"].take (1 + 1)).map
          (responseScores ⟨fun s => [s.length], fun l => l, fun _ => "r",
            fun _ => [1], fun _ => 0⟩)).flatten),
         (fun _ => (0 : ℚ)) ((([ToxSample.mk "a", ToxSample.mk "b",
            ToxSample.mk "c"].take (1 + 1)).map
          (responseScores ⟨fun s => [s.length], fun l => l, fun _ => "r",
            fun _ => [1], fun _ => 0⟩)).flatten))) :=
  ⟨by decide,
   evaluate_toxicity_spec ⟨fun s => [s.length], fun l => l, fun _ => "r",
     fun _ => [1], fun _ => 0⟩
     [ToxSample.mk "a", ToxSample.mk "b", ToxSample.mk "c"] 1 (by decide)⟩

/-- Witness for C9: a two-parameter model (a frozen 5-element parameter and
a trainable 3-element parameter) takes the formatted-string branch with
`trainable ≤ all`, and the empty model reaches the division-by-zero error
branch. -/
theorem print_params_bounds_and_zero_division_witness :
    (allModelParams [⟨5, false⟩, ⟨3, true⟩] ≠ 0 ∧
      (∃ s, print_number_of_trainable_model_parameters
          [⟨5, false⟩, ⟨3, true⟩] = some s ∧
        trainableModelParams [⟨5, false⟩, ⟨3, true⟩] ≤
          allModelParams [⟨5, false⟩, ⟨3, true⟩])) ∧
    (allModelParams ([] : List ModelParam) = 0 ∧
      print_number_of_trainable_model_parameters ([] : List ModelParam)
        = none) :=
  ⟨⟨by decide,
    (print_params_bounds_and_zero_division [⟨5, false⟩, ⟨3, true⟩]).1
      (by decide)⟩,
   ⟨by decide,
    (print_params_bounds_and_zero_division ([] : List ModelParam)).2
      (by decide)⟩⟩

/-! ## The PPO fine-tuning loop (src/unnamed/part_000, lines 2048–2102).

The loop enumerates `ppo_trainer.dataloader`, breaks once `step >=
max_ppo_steps`, and otherwise: takes the tokenized prompt batch
(`batch["input_ids"]`), generates one summary per prompt with a sampled
`max_new_tokens` and truncates it with `summary.squeeze()[-max_new_tokens:]`,
decodes the summaries, scores every concatenated query+response pair with
the reward pipeline (`sentiment_pipe`, keeping the `nothate` score at
`not_hate_index`), and finally calls
`ppo_trainer.step(prompt_tensors, summary_tensors, reward_tensors)` once.
The external calls (length sampler — randomness is abstracted as a
function of the step and prompt indices —, `ppo_trainer.generate`,
`tokenizer.decode`, the reward pipeline) are abstract; the loop itself is
embedded as a trace of events. -/

/-- One batch produced by `ppo_trainer.dataloader` (the collated columns
the loop reads: `input_ids` and `query`). -/
structure PpoBatch where
  input_ids : List (List Nat)
  query : List String
deriving DecidableEq, Repr

/-- The external calls of the loop. `sampler s j` is the value of
`output_length_sampler()` for prompt `j` of step `s`; `generate p k` is
`ppo_trainer.generate(p, **generation_kwargs)` with
`max_new_tokens = k`; `reward` is `sentiment_pipe` followed by selecting
`reward[not_hate_index]["score"]`. -/
structure PpoEnv where
  sampler : Nat → Nat → Nat
  generate : List Nat → Nat → List Nat
  decode : List Nat → String
  reward : String → ℚ

/-- `max_ppo_steps = 10`. -/
def maxPpoSteps : Nat := 10

/-- The observable actions of one pass through the loop body. -/
inductive PpoEvent
  | takeBatch (b : PpoBatch)
  | generate (prompt : List Nat) (maxNewTokens : Nat) (summary : List Nat)
  | score (pairs : List String) (rewards : List ℚ)
  | step (prompts : List (List Nat)) (summaries : List (List Nat))
      (rewards : List ℚ)
deriving DecidableEq, Repr

/-- The summary tensors of step `s`: for each prompt, generate with the
sampled `max_new_tokens` and keep `summary.squeeze()[-max_new_tokens:]`. -/
def ppoSummaries (env : PpoEnv) (s : Nat) (prompts : List (List Nat)) :
    List (List Nat) :=
  prompts.enum.map fun p =>
    lastSlice (env.sampler s p.1) (env.generate p.2 (env.sampler s p.1))

/-- `batch["response"]`: the decoded summaries. -/
def ppoResponses (env : PpoEnv) (s : Nat) (b : PpoBatch) : List String :=
  (ppoSummaries env s b.input_ids).map env.decode

/-- `query_response_pairs = [q + r for q, r in zip(batch["query"],
batch["response"])]`. -/
def ppoPairs (env : PpoEnv) (s : Nat) (b : PpoBatch) : List String :=
  (b.query.zip (ppoResponses env s b)).map fun qr => qr.1 ++ qr.2

/-- `reward_tensors`: the `nothate` score of each pair. -/
def ppoRewards (env : PpoEnv) (s : Nat) (b : PpoBatch) : List ℚ :=
  (ppoPairs env s b).map env.reward

/-- The trace of one loop body: take the batch, one generation per prompt,
one scoring of all pairs, one `ppo_trainer.step`. -/
def ppoIterEvents (env : PpoEnv) (s : Nat) (b : PpoBatch) : List PpoEvent :=
  PpoEvent.takeBatch b ::
    (b.input_ids.enum.map fun p =>
      PpoEvent.generate p.2 (env.sampler s p.1)
        (lastSlice (env.sampler s p.1)
          (env.generate p.2 (env.sampler s p.1)))) ++
    [PpoEvent.score (ppoPairs env s b) (ppoRewards env s b),
     PpoEvent.step b.input_ids (ppoSummaries env s b.input_ids)
       (ppoRewards env s b)]

/-- The enumerated loop with its `if step >= max_ppo_steps: break`. -/
def ppoLoopFrom (env : PpoEnv) : Nat → List PpoBatch → List (List PpoEvent)
  | _, [] => []
  | s, b :: rest =>
    if maxPpoSteps ≤ s then []
    else ppoIterEvents env s b :: ppoLoopFrom env (s + 1) rest

/-- The whole training loop over the dataloader. -/
def ppoTrainingLoop (env : PpoEnv) (dataloader : List PpoBatch) :
    List (List PpoEvent) :=
  ppoLoopFrom env 0 dataloader

/-- The stage tag of an event, used to state the take → generate → score →
step shape of an iteration. -/
inductive PpoStage
  | takeB
  | gen
  | scoreStage
  | stepStage
deriving DecidableEq, Repr

def stageOf : PpoEvent → PpoStage
  | PpoEvent.takeBatch _ => PpoStage.takeB
  | PpoEvent.generate _ _ _ => PpoStage.gen
  | PpoEvent.score _ _ => PpoStage.scoreStage
  | PpoEvent.step _ _ _ => PpoStage.stepStage

/-- The property C2 asserts of the loop trace. -/
def PpoLoopClaim (env : PpoEnv) (dl : List PpoBatch) : Prop :=
  (ppoTrainingLoop env dl).length = min dl.length maxPpoSteps ∧
  (ppoTrainingLoop env dl).length ≤ 10 ∧
  (∀ (i : Nat) (tr : List PpoEvent),
    (ppoTrainingLoop env dl)[i]? = some tr →
    ∃ b : PpoBatch, dl[i]? = some b ∧
      tr.map stageOf = PpoStage.takeB ::
        (List.replicate b.input_ids.length PpoStage.gen ++
          [PpoStage.scoreStage, PpoStage.stepStage]) ∧
      tr.getLast? = some (PpoEvent.step b.input_ids
        (ppoSummaries env i b.input_ids) (ppoRewards env i b)) ∧
      PpoEvent.score (ppoPairs env i b) (ppoRewards env i b) ∈ tr ∧
      (∀ (j : Nat) (summ : List Nat),
        (ppoSummaries env i b.input_ids)[j]? = some summ →
        summ.length ≤ env.sampler i j))

theorem ppoLoopFrom_length (env : PpoEnv) :
    ∀ (dl : List PpoBatch) (s : Nat),
      (ppoLoopFrom env s dl).length = min dl.length (maxPpoSteps - s) := by
  intro dl
  induction dl with
  | nil => intro s; simp [ppoLoopFrom]
  | cons b rest ih =>
    intro s
    unfold ppoLoopFrom
    by_cases hs : maxPpoSteps ≤ s
    · rw [if_pos hs]
      simp only [List.length_nil, List.length_cons]
      unfold maxPpoSteps at *
      omega
    · rw [if_neg hs]
      simp only [List.length_cons, ih (s + 1)]
      unfold maxPpoSteps at *
      omega

theorem ppoLoopFrom_getElem (env : PpoEnv) :
    ∀ (dl : List PpoBatch) (s i : Nat) (tr : List PpoEvent),
      (ppoLoopFrom env s dl)[i]? = some tr →
      ∃ b : PpoBatch, dl[i]? = some b ∧ tr = ppoIterEvents env (s + i) b := by
  intro dl
  induction dl with
  | nil => intro s i tr h; simp [ppoLoopFrom] at h
  | cons b rest ih =>
    intro s i tr h
    unfold ppoLoopFrom at h
    by_cases hs : maxPpoSteps ≤ s
    · rw [if_pos hs] at h
      simp at h
    · rw [if_neg hs] at h
      cases i with
      | zero =>
        rw [List.getElem?_cons_zero, Option.some_inj] at h
        exact ⟨b, by rw [List.getElem?_cons_zero], by rw [← h, Nat.add_zero]⟩
      | succ i =>
        rw [List.getElem?_cons_succ] at h
        rcases ih (s + 1) i tr h with ⟨b', hb', htr⟩
        refine ⟨b', by rw [List.getElem?_cons_succ]; exact hb', ?_⟩
        rw [htr]
        ring_nf

theorem ppoIterEvents_stages (env : PpoEnv) (s : Nat) (b : PpoBatch) :
    (ppoIterEvents env s b).map stageOf = PpoStage.takeB ::
      (List.replicate b.input_ids.length PpoStage.gen ++
        [PpoStage.scoreStage, PpoStage.stepStage]) := by
  unfold ppoIterEvents
  rw [List.map_append, List.map_cons, List.map_map]
  have : (stageOf ∘ fun p : Nat × List Nat =>
      PpoEvent.generate p.2 (env.sampler s p.1)
        (lastSlice (env.sampler s p.1)
          (env.generate p.2 (env.sampler s p.1)))) =
      fun _ => PpoStage.gen := by
    funext p
    rfl
  rw [this, List.map_const', List.enum_length]
  rfl

/-- C2: every iteration of the PPO fine-tuning loop takes the batch,
generates one summary per prompt (each truncated to at most the sampled
`max_new_tokens`, the sampled values being positive as `LengthSampler(100,
400)` only produces values in `[100, 400)`), then scores every
concatenated query+response pair, and only then performs exactly one
`ppo_trainer.step` with the prompt tensors, summary tensors and reward
tensors — the step event is the last event of the iteration and the stage
sequence is exactly take, generate per prompt, score, step; the loop runs
`min(len(dataloader), max_ppo_steps)` iterations, never more than 10. -/
theorem ppo_training_loop_spec (env : PpoEnv) (dl : List PpoBatch)
    (hpos : ∀ s j, 0 < env.sampler s j) : PpoLoopClaim env dl := by
  refine ⟨?_, ?_, ?_⟩
  · unfold ppoTrainingLoop
    rw [ppoLoopFrom_length env dl 0]
    omega
  · unfold ppoTrainingLoop
    rw [ppoLoopFrom_length env dl 0]
    unfold maxPpoSteps
    omega
  · intro i tr h
    rcases ppoLoopFrom_getElem env dl 0 i tr h with ⟨b, hb, htr⟩
    rw [Nat.zero_add] at htr
    subst htr
    refine ⟨b, hb, ppoIterEvents_stages env i b, ?_, ?_, ?_⟩
    · have hconcat : ppoIterEvents env i b =
          (PpoEvent.takeBatch b ::
            (b.input_ids.enum.map fun p =>
              PpoEvent.generate p.2 (env.sampler i p.1)
                (lastSlice (env.sampler i p.1)
                  (env.generate p.2 (env.sampler i p.1)))) ++
            [PpoEvent.score (ppoPairs env i b) (ppoRewards env i b)]) ++
          [PpoEvent.step b.input_ids (ppoSummaries env i b.input_ids)
            (ppoRewards env i b)] := by
        unfold ppoIterEvents
        simp [List.append_assoc]
      rw [hconcat, List.getLast?_concat]
    · unfold ppoIterEvents
      simp
    · intro j summ hsumm
      unfold ppoSummaries at hsumm
      rw [List.getElem?_map, List.getElem?_enum] at hsumm
      cases hp : b.input_ids[j]? with
      | none => rw [hp] at hsumm; simp at hsumm
      | some p =>
        rw [hp] at hsumm
        simp only [Option.map_some'] at hsumm
        rw [Option.some_inj] at hsumm
        rw [← hsumm]
        exact lastSlice_length_le (hpos i j) _

/-- Witness for C2: a sampler that always returns 1 (positive), a
single-batch dataloader with one prompt. -/
theorem ppo_training_loop_spec_witness :
    (∀ s j, 0 < (PpoEnv.mk (fun _ _ => 1) (fun p _ => p) (fun _ => "r")
      (fun _ => 0)).sampler s j) ∧
    PpoLoopClaim (PpoEnv.mk (fun _ _ => 1) (fun p _ => p) (fun _ => "r")
      (fun _ => 0)) [PpoBatch.mk [[1, 2]] ["q"]] :=
  ⟨fun _ _ => Nat.one_pos,
   ppo_training_loop_spec
     (PpoEnv.mk (fun _ _ => 1) (fun p _ => p) (fun _ => "r") (fun _ => 0))
     [PpoBatch.mk [[1, 2]] ["q"]] (fun _ _ => Nat.one_pos)⟩

/-! ## The RLHF notebook as an operation sequence
(src/unnamed/part_000, second document, lines 1463–2280).

To settle the pipeline-order claim the RLHF notebook is transcribed,
statement by statement in cell order, as a list of operations.  Each
operation records the library call or statement kind (`opName`), the
source-level arguments relevant to the claims (`args`), and the notebook
variables the statement (re)binds (`binds`). -/

structure NotebookOp where
  opName : String
  args : List String
  binds : List String
deriving DecidableEq, Repr

/-- Does the operation carry the given name? -/
def isOpName (n : String) (op : NotebookOp) : Bool := op.opName == n

/-- Index of the first operation with the given name. -/
def firstIdx (n : String) (l : List NotebookOp) : Nat :=
  l.findIdx (isOpName n)

/-- Index of the last operation with the given name. -/
def lastOpIdx (n : String) (l : List NotebookOp) : Nat :=
  l.length - 1 - l.reverse.findIdx (isOpName n)

/-- The code cells of the RLHF notebook, in order.  Lines refer to
src/unnamed/part_000. -/
def rlhfNotebook : List NotebookOp := [
  -- lines 1498–1515: imports
  ⟨"imports", [], []⟩,
  -- lines 1536–1540
  ⟨"assign", ["google/flan-t5-base"], ["model_name"]⟩,
  ⟨"assign", ["knkarthick/dialogsum"], ["huggingface_dataset_name"]⟩,
  ⟨"load_dataset", ["huggingface_dataset_name"], ["dataset_original"]⟩,
  -- lines 1550–1594
  ⟨"def", [], ["build_dataset"]⟩,
  ⟨"build_dataset", ["model_name", "huggingface_dataset_name", "200",
    "1000"], ["dataset"]⟩,
  -- lines 1606, 1618: shell cells
  ⟨"shell", ["aws s3 cp --recursive s3://dsoaws/models/peft-dialogue-summary-checkpoint/ ./peft-dialogue-summary-checkpoint-from-s3/"], []⟩,
  ⟨"shell", ["ls -alh ./peft-dialogue-summary-checkpoint-from-s3/adapter_model.bin"], []⟩,
  -- lines 1628–1635
  ⟨"def", [], ["print_number_of_trainable_model_parameters"]⟩,
  -- lines 1657–1676
  ⟨"assign", ["LoraConfig"], ["lora_config"]⟩,
  ⟨"AutoModelForSeq2SeqLM.from_pretrained", ["model_name"], ["model"]⟩,
  ⟨"PeftModel.from_pretrained", ["model",
    "./peft-dialogue-summary-checkpoint-from-s3/", "is_trainable=True"],
    ["peft_model"]⟩,
  -- lines 1686–1691
  ⟨"AutoModelForSeq2SeqLMWithValueHead.from_pretrained", ["peft_model",
    "is_trainable=True"], ["ppo_model"]⟩,
  -- lines 1719–1722
  ⟨"assign", ["facebook/roberta-hate-speech-dynabench-r4-target"],
    ["toxicity_model_name"]⟩,
  ⟨"AutoTokenizer.from_pretrained", ["toxicity_model_name"],
    ["toxicity_tokenizer"]⟩,
  ⟨"AutoModelForSequenceClassification.from_pretrained",
    ["toxicity_model_name"], ["toxicity_model"]⟩,
  -- lines 1742–1756 and 1766–1781: reward-model probes
  ⟨"probe_reward_model", ["non_toxic_text"], ["non_toxic_text",
    "toxicity_input_ids", "logits", "probabilities", "not_hate_index",
    "nothate_reward"]⟩,
  ⟨"probe_reward_model", ["toxic_text"], ["toxic_text",
    "toxicity_input_ids", "logits", "probabilities", "nothate_reward"]⟩,
  -- lines 1793–1815
  ⟨"pipeline", ["sentiment-analysis", "toxicity_model_name"], ["device",
    "sentiment_pipe", "reward_logits_kwargs",
    "reward_probabilities_kwargs"]⟩,
  -- lines 1825–1826, 1836–1837: print-only cells
  ⟨"print_pipe", ["non_toxic_text"], []⟩,
  ⟨"print_pipe", ["toxic_text"], []⟩,
  -- lines 1859–1864
  ⟨"evaluate.load", ["toxicity", "toxicity_model_name"],
    ["toxicity_evaluator"]⟩,
  -- lines 1876–1886
  ⟨"toxicity_probe", ["non_toxic_text", "toxic_text"],
    ["toxicity_score"]⟩,
  -- lines 1900–1936
  ⟨"def", [], ["evaluate_toxicity"]⟩,
  -- lines 1948–1956
  ⟨"AutoTokenizer.from_pretrained", ["model_name"], ["tokenizer"]⟩,
  ⟨"evaluate_toxicity", ["ppo_model", "toxicity_evaluator", "tokenizer",
    "dataset[test]", "num_samples=10"],
    ["mean_before_detoxification", "std_before_detoxification"]⟩,
  -- lines 1985–1987
  ⟨"create_reference_model", ["ppo_model"], ["ref_model"]⟩,
  -- lines 2005–2028
  ⟨"PPOTrainer", ["config", "ppo_model", "ref_model", "tokenizer",
    "dataset[train]", "collator"], ["learning_rate", "max_ppo_epochs",
    "mini_batch_size", "batch_size", "config", "collator",
    "ppo_trainer"]⟩,
  -- lines 2048–2102
  ⟨"ppo_loop", ["max_ppo_steps=10"], ["output_min_length",
    "output_max_length", "output_length_sampler", "generation_kwargs",
    "reward_kwargs", "max_ppo_steps", "step", "batch", "prompt_tensors",
    "summary_tensors", "max_new_tokens", "summary",
    "query_response_pairs", "rewards", "reward_tensors", "stats"]⟩,
  -- lines 2122–2127
  ⟨"evaluate_toxicity", ["ppo_model", "toxicity_evaluator", "tokenizer",
    "dataset[test]", "num_samples=10"],
    ["mean_after_detoxification", "std_after_detoxification"]⟩,
  -- lines 2137–2142
  ⟨"assign", [], ["mean_improvement", "std_improvement"]⟩,
  -- lines 2157–2201: qualitative comparison
  ⟨"compare_summaries", ["ref_model", "ppo_model"], ["batch_size",
    "compare_results", "df_batch", "prompt_tensors",
    "summary_tensors_ref", "summary_tensors", "gen_len", "summary",
    "texts_before", "rewards_before", "texts_after", "rewards_after"]⟩,
  -- lines 2208–2213
  ⟨"assign", [], ["df_compare_results", "df_compare_results_sorted"]⟩]

/-- C3: in the RLHF notebook the LoRA adapter checkpoint is loaded onto
the base model (`PeftModel.from_pretrained`) before the value head is
attached (`AutoModelForSeq2SeqLMWithValueHead.from_pretrained` on the
PEFT model), the value head comes before the PPO loop, and the PPO loop
comes before the last `evaluate_toxicity` call; there are exactly two
`evaluate_toxicity` calls, one before and one after the PPO loop, both
with the same model, evaluator, tokenizer, dataset split and
`num_samples`; and no statement between the two calls rebinds
`ppo_model`, `toxicity_evaluator`, `tokenizer` or `dataset`. -/
theorem rlhf_pipeline_order :
    firstIdx "PeftModel.from_pretrained" rlhfNotebook <
      firstIdx "AutoModelForSeq2SeqLMWithValueHead.from_pretrained"
        rlhfNotebook ∧
    firstIdx "AutoModelForSeq2SeqLMWithValueHead.from_pretrained"
        rlhfNotebook < firstIdx "ppo_loop" rlhfNotebook ∧
    firstIdx "ppo_loop" rlhfNotebook <
      lastOpIdx "evaluate_toxicity" rlhfNotebook ∧
    (rlhfNotebook.filter (isOpName "evaluate_toxicity")).length = 2 ∧
    firstIdx "evaluate_toxicity" rlhfNotebook <
      firstIdx "ppo_loop" rlhfNotebook ∧
    (∀ op ∈ rlhfNotebook.filter (isOpName "evaluate_toxicity"),
      op.args = ["ppo_model", "toxicity_evaluator", "tokenizer",
        "dataset[test]", "num_samples=10"]) ∧
    ((rlhfNotebook.drop
        (firstIdx "evaluate_toxicity" rlhfNotebook + 1)).take
        (lastOpIdx "evaluate_toxicity" rlhfNotebook -
          firstIdx "evaluate_toxicity" rlhfNotebook - 1)).all
      (fun op => (["ppo_model", "toxicity_evaluator", "tokenizer",
        "dataset"].all fun v => !(op.binds.contains v))) = true := by
  decide

/-! ## The data-quality notebook
(src/01c_Analyze_Data_Quality_ProcessingJob_Spark.ipynb).

The notebook's `load_dataset` helper concatenates all `*.csv` files of a
report directory, each parsed by `pd.read_csv(f, sep=sep, header=header)`
(the pandas parser is abstract), with `pd.concat(..., ignore_index=True)`
preserving the file order produced by `glob`. -/

/-- A file of a report directory: its path and raw content. -/
structure ReportFile where
  name : String
  content : String
deriving DecidableEq, Repr

/-- The external pandas parser: content, separator, header row index. -/
structure PandasEnv where
  read_csv : String → String → Option Nat → List (List String)

/-- The notebook's `load_dataset(path, sep, header)`: parse every `*.csv`
file of the directory and concatenate the tables. -/
def load_dataset (env : PandasEnv) (dir : List ReportFile) (sep : String)
    (header : Option Nat) : List (List String) :=
  ((dir.filter fun f => f.name.endsWith ".csv").map
    fun f => env.read_csv f.content sep header).flatten

/-- The code cells of the data-quality notebook, in order. -/
def dqNotebook : List NotebookOp := [
  -- cell 5
  ⟨"store_restore", ["setup_dependencies_passed"],
    ["setup_dependencies_passed"]⟩,
  -- cell 6
  ⟨"flag_check", ["setup_dependencies_passed"], []⟩,
  -- cell 7
  ⟨"print", ["setup_dependencies_passed"], []⟩,
  -- cell 9
  ⟨"session_setup", [], ["sess", "bucket", "role", "region", "config"]⟩,
  -- cell 11
  ⟨"shell", ["pygmentize preprocess_deequ_pyspark.py"], []⟩,
  -- cell 12
  ⟨"PySparkProcessor", ["spark-amazon-reviews-analyzer", "2.4", "2",
    "ml.m5.2xlarge", "300"], ["processor"]⟩,
  -- cell 13
  ⟨"assign", ["s3://bucket/amazon-reviews-pds/tsv/"], ["s3_input_data"]⟩,
  -- cell 14
  ⟨"shell", ["aws s3 ls s3_input_data"], []⟩,
  -- cell 16
  ⟨"assign", [], ["timestamp_prefix", "output_prefix",
    "processing_job_name"]⟩,
  -- cell 17
  ⟨"assign", ["s3://bucket/output_prefix/output"],
    ["s3_output_analyze_data"]⟩,
  -- cell 19
  ⟨"processor.run", ["submit_app=preprocess_deequ_pyspark.py",
    "submit_jars=deequ-1.0.3-rc2.jar", "s3_input_data",
    "s3_output_analyze_data", "logs=True", "wait=False"], []⟩,
  -- cells 20–22
  ⟨"display_links", [], ["processing_job_name"]⟩,
  ⟨"display_links", [], ["processing_job_name"]⟩,
  ⟨"display_links", [], ["s3_job_output_prefix"]⟩,
  -- cell 24
  ⟨"describe_job", [], ["running_processor",
    "processing_job_description"]⟩,
  -- cell 25
  ⟨"wait_job", [], []⟩,
  -- cell 28
  ⟨"shell", ["aws s3 ls --recursive s3_output_analyze_data/"], []⟩,
  -- cell 30
  ⟨"shell", ["aws s3 cp --recursive s3_output_analyze_data ./amazon-reviews-spark-analyzer/ --include *.csv"], []⟩,
  -- cell 32
  ⟨"def", [], ["load_dataset"]⟩,
  -- cells 33, 35, 37, 39
  ⟨"load_dataset", ["./amazon-reviews-spark-analyzer/constraint-checks/",
    "\t", "header=0"], ["df_constraint_checks"]⟩,
  ⟨"load_dataset", ["./amazon-reviews-spark-analyzer/dataset-metrics/",
    "\t", "header=0"], ["df_dataset_metrics"]⟩,
  ⟨"load_dataset", ["./amazon-reviews-spark-analyzer/success-metrics/",
    "\t", "header=0"], ["df_success_metrics"]⟩,
  ⟨"load_dataset",
    ["./amazon-reviews-spark-analyzer/constraint-suggestions/", "\t",
    "header=0"], ["df_constraint_suggestions"]⟩,
  -- cell 41
  ⟨"html_shutdown", [], []⟩]

/-- C4: the data-quality notebook submits exactly one Spark processing
job (`processor.run` with the PySpark script, the Deequ jar, and the S3
input and output paths as arguments), and only afterwards inspects the
output by calling `load_dataset` once for each of the four report
directories (constraint-checks, dataset-metrics, success-metrics,
constraint-suggestions), each parsed tab-separated with header row 0;
`load_dataset` itself concatenates the parses of exactly the `*.csv`
files of the directory, in order. -/
theorem dq_notebook_spec :
    ((dqNotebook.filter (isOpName "processor.run")).length = 1 ∧
    (dqNotebook.filter (isOpName "processor.run")).map NotebookOp.args =
      [["submit_app=preprocess_deequ_pyspark.py",
        "submit_jars=deequ-1.0.3-rc2.jar", "s3_input_data",
        "s3_output_analyze_data", "logs=True", "wait=False"]] ∧
    firstIdx "processor.run" dqNotebook <
      firstIdx "load_dataset" dqNotebook ∧
    (dqNotebook.filter (isOpName "load_dataset")).map NotebookOp.args =
      [["./amazon-reviews-spark-analyzer/constraint-checks/", "\t",
        "header=0"],
       ["./amazon-reviews-spark-analyzer/dataset-metrics/", "\t",
        "header=0"],
       ["./amazon-reviews-spark-analyzer/success-metrics/", "\t",
        "header=0"],
       ["./amazon-reviews-spark-analyzer/constraint-suggestions/", "\t",
        "header=0"]]) ∧
    (∀ (env : PandasEnv) (dir : List ReportFile) (sep : String)
      (header : Option Nat),
      (load_dataset env dir sep header).length =
        ((dir.filter fun f => f.name.endsWith ".csv").map
          fun f => (env.read_csv f.content sep header).length).sum ∧
      load_dataset env dir sep header =
        load_dataset env (dir.filter fun f => f.name.endsWith ".csv")
          sep header) := by
  constructor
  · refine ⟨by decide, by decide, by decide, by decide⟩
  · intro env dir sep header
    constructor
    · unfold load_dataset
      rw [List.length_flatten, List.map_map]
      rfl
    · unfold load_dataset
      rw [List.filter_filter]
      simp

/-! ## The setup notebook's install commands
(src/unnamed/part_001, lines 106–379).

Every pip/conda installation command of the setup notebook, in cell
order.  The `%pip uninstall` cell (lines 143–145) is not an installation.
A pin is either an exact `==` version, a git commit (the
`git+https://github.com/lvwerra/trl.git@25fa1bd` requirement), or absent. -/

inductive VersionPin
  | exactVersion (version : String)
  | gitCommit (commit : String)
  | unpinned
deriving DecidableEq, Repr

inductive PkgManager
  | pip
  | conda
deriving DecidableEq, Repr

structure InstallCmd where
  manager : PkgManager
  package : String
  pin : VersionPin
deriving DecidableEq, Repr

def setupInstallCommands : List InstallCmd := [
  -- line 106
  ⟨PkgManager.pip, "sagemaker", VersionPin.exactVersion "2.136.0"⟩,
  -- line 117
  ⟨PkgManager.pip, "sagemaker-experiments", VersionPin.exactVersion "0.1.28"⟩,
  -- lines 156–158
  ⟨PkgManager.pip, "torch", VersionPin.exactVersion "1.13.1"⟩,
  ⟨PkgManager.pip, "torchdata", VersionPin.exactVersion "0.5.1"⟩,
  -- lines 189–201
  ⟨PkgManager.pip, "transformers", VersionPin.exactVersion "4.27.2"⟩,
  ⟨PkgManager.pip, "datasets", VersionPin.exactVersion "2.11.0"⟩,
  ⟨PkgManager.pip, "accelerate", VersionPin.exactVersion "0.17.0"⟩,
  ⟨PkgManager.pip, "bitsandbytes", VersionPin.exactVersion "0.37.0"⟩,
  ⟨PkgManager.pip, "promptsource", VersionPin.exactVersion "0.2.3"⟩,
  ⟨PkgManager.pip, "evaluate", VersionPin.exactVersion "0.4.0"⟩,
  ⟨PkgManager.pip, "py7zr", VersionPin.exactVersion "0.20.4"⟩,
  ⟨PkgManager.pip, "sentencepiece", VersionPin.exactVersion "0.1.99"⟩,
  ⟨PkgManager.pip, "rouge_score", VersionPin.exactVersion "0.1.2"⟩,
  ⟨PkgManager.pip, "loralib", VersionPin.exactVersion "0.1.1"⟩,
  ⟨PkgManager.pip, "peft", VersionPin.exactVersion "0.3.0"⟩,
  ⟨PkgManager.pip, "trl", VersionPin.gitCommit "25fa1bd"⟩,
  -- line 229
  ⟨PkgManager.pip, "ray", VersionPin.exactVersion "2.5.0"⟩,
  -- line 255
  ⟨PkgManager.pip, "PyAthena", VersionPin.exactVersion "2.1.1"⟩,
  -- lines 281–282
  ⟨PkgManager.pip, "SQLAlchemy", VersionPin.exactVersion "1.3.23"⟩,
  ⟨PkgManager.pip, "psycopg2-binary", VersionPin.exactVersion "2.9.1"⟩,
  -- line 308: conda install -q -y zip, no version requested
  ⟨PkgManager.conda, "zip", VersionPin.unpinned⟩,
  -- line 327
  ⟨PkgManager.pip, "matplotlib", VersionPin.exactVersion "3.1.3"⟩,
  -- line 353
  ⟨PkgManager.pip, "seaborn", VersionPin.exactVersion "0.10.0"⟩,
  -- line 379
  ⟨PkgManager.pip, "scikit-learn", VersionPin.exactVersion "0.23.1"⟩]

/-- C6 counterexample: the conda installation of `zip`
(`%conda install -q -y zip`, src/unnamed/part_001 line 308) requests no
version at all, so it is not the case that every installation command of
the setup notebook pins its package to a fixed version. -/
theorem setup_install_unpinned_zip :
    InstallCmd.mk PkgManager.conda "zip" VersionPin.unpinned ∈
      setupInstallCommands ∧
    ¬ (∀ cmd ∈ setupInstallCommands, cmd.pin ≠ VersionPin.unpinned) := by
  decide

/-- C6 (amended): every pip-installed package of the setup notebook is
pinned to an exact `==` version except the single git-sourced package
`trl`, which is pinned to the fixed commit `25fa1bd`; the only
installation command that leaves the version unspecified is the conda
installation of `zip`. -/
theorem setup_install_pins :
    (∀ cmd ∈ setupInstallCommands, cmd.manager = PkgManager.pip →
      cmd.pin ≠ VersionPin.unpinned) ∧
    (∀ cmd ∈ setupInstallCommands, cmd.manager = PkgManager.pip →
      cmd.package ≠ "trl" →
      cmd.pin ≠ VersionPin.gitCommit "25fa1bd" ∧
      ∀ c, cmd.pin ≠ VersionPin.gitCommit c) ∧
    InstallCmd.mk PkgManager.pip "trl" (VersionPin.gitCommit "25fa1bd") ∈
      setupInstallCommands ∧
    (setupInstallCommands.filter
      (fun cmd => cmd.pin == VersionPin.unpinned)) =
      [InstallCmd.mk PkgManager.conda "zip" VersionPin.unpinned] := by
  refine ⟨by decide, ?_, by decide, by decide⟩
  intro cmd hmem hpip htrl
  fin_cases hmem <;> simp_all

/-! ## Exception handlers across the notebooks.

Transcription of every `try`/`except` statement appearing in the Python
code cells of the three notebooks.  (The only other try/catch blocks are
JavaScript inside the `%%html` kernel-shutdown cells, not notebook Python
code.)  `catches` is the caught exception class (empty string for a bare
`except`); `handlerPrints` records that the handler body only prints a
message; `reraises` records whether the handler re-raises. -/

structure ExcHandler where
  notebook : String
  tryBody : String
  catches : String
  handlerPrints : Bool
  reraises : Bool
deriving DecidableEq, Repr

/-- The existence check for the stored setup flag
(src/01c_Analyze_Data_Quality_ProcessingJob_Spark.ipynb, cell 6): `try:
setup_dependencies_passed / except NameError: print([ERROR] YOU HAVE TO
RUN THE PREVIOUS NOTEBOOKS)`. -/
def setupFlagHandler : ExcHandler :=
  ⟨"01c_Analyze_Data_Quality_ProcessingJob_Spark.ipynb",
   "setup_dependencies_passed", "NameError", true, false⟩

/-- The bare `except` around the execution-role lookup
(src/unnamed/part_001, lines 399–405): `try: role =
sagemaker.get_execution_role() / except: print(If there is an exception,
please set the role directly ...) / pass`. -/
def roleExcHandler : ExcHandler :=
  ⟨"setup notebook (src/unnamed/part_001)",
   "role = sagemaker.get_execution_role()", "", true, false⟩

/-- All `try`/`except` statements in the Python cells of the repository,
in notebook order. -/
def pythonExcHandlers : List ExcHandler :=
  [roleExcHandler, setupFlagHandler]

/-- C1 counterexample: the setup notebook wraps
`sagemaker.get_execution_role()` in a `try`/bare-`except` that prints a
hint and continues — custom error handling distinct from the
`setup_dependencies_passed` existence check — so the existence check is
not the only custom error handling in the notebooks. -/
theorem error_handling_not_only_flag_check :
    roleExcHandler ∈ pythonExcHandlers ∧
    roleExcHandler ≠ setupFlagHandler ∧
    ¬ (∀ h ∈ pythonExcHandlers, h = setupFlagHandler) := by
  decide

/-- C1 (amended): the notebooks contain exactly two custom exception
handlers — the existence check for the stored setup flag
`setup_dependencies_passed` (catching `NameError` and printing a warning)
and the bare `except` around `sagemaker.get_execution_role()` (printing a
hint and passing) — both of which only print and neither of which
re-raises or adds recovery logic; every other failure raised by an
underlying library or platform call propagates to the caller unchanged. -/
theorem error_handling_two_print_only_handlers :
    pythonExcHandlers = [roleExcHandler, setupFlagHandler] ∧
    pythonExcHandlers.length = 2 ∧
    (∀ h ∈ pythonExcHandlers,
      h.handlerPrints = true ∧ h.reraises = false) := by
  decide

/-! ## Inter-notebook state channels.

Every channel by which a notebook of the repository obtains data produced
by another notebook session: IPython `%store`-persisted variables and
files staged in object storage (or copied to the local filesystem from
it).  `inMemory` is the constructor a direct sharing of live runtime
state would use; no transcribed channel uses it. -/

inductive Channel
  | storeVar (name : String)
  | s3Object (path : String)
  | inMemory (desc : String)
deriving DecidableEq, Repr

def Channel.isPersisted : Channel → Bool
  | Channel.inMemory _ => false
  | _ => true

/-- Variables and objects the setup notebook persists for later notebooks
(src/unnamed/part_001: `%store role`, `%store s3_public_path_tsv`,
`%store s3_private_path_tsv`, `%store raw_input_data_s3_uri`, `%store
model_checkpoint`, `%store setup_dependencies_passed`; `aws s3 cp` of the
three review TSVs; `sess.upload_data` of the two dialogsum CSVs). -/
def setupNotebookPersists : List Channel := [
  Channel.storeVar "role",
  Channel.s3Object "s3://bucket/amazon-reviews-pds/tsv/amazon_reviews_us_Digital_Software_v1_00.tsv.gz",
  Channel.s3Object "s3://bucket/amazon-reviews-pds/tsv/amazon_reviews_us_Digital_Video_Games_v1_00.tsv.gz",
  Channel.s3Object "s3://bucket/amazon-reviews-pds/tsv/amazon_reviews_us_Gift_Card_v1_00.tsv.gz",
  Channel.storeVar "s3_public_path_tsv",
  Channel.storeVar "s3_private_path_tsv",
  Channel.s3Object "s3://bucket/data-summarization/dialogsum-1.csv",
  Channel.s3Object "s3://bucket/data-summarization/dialogsum-2.csv",
  Channel.storeVar "raw_input_data_s3_uri",
  Channel.storeVar "model_checkpoint",
  Channel.storeVar "setup_dependencies_passed"]

/-- Channels through which the data-quality notebook reads data produced
by an earlier notebook session: the `%store -r setup_dependencies_passed`
restore (cell 5) and the staged review TSVs (`s3_input_data`, cell 13). -/
def dqNotebookInbound : List Channel := [
  Channel.storeVar "setup_dependencies_passed",
  Channel.s3Object "s3://bucket/amazon-reviews-pds/tsv/"]

/-- Channels through which the fine-tuning/RLHF notebook reads data
produced elsewhere: the LoRA adapter checkpoint copied from S3
(src/unnamed/part_000, line 1606). -/
def rlhfNotebookInbound : List Channel := [
  Channel.s3Object "s3://dsoaws/models/peft-dialogue-summary-checkpoint/"]

/-- C7: the data-quality notebook obtains `setup_dependencies_passed`
through exactly one channel — restoring the variable that the setup
notebook persisted with `%store` — and every channel by which any
notebook reads data produced by another notebook session is a persisted
one (`%store` variable or object-storage file), never live in-memory
state. -/
theorem inter_notebook_state_channels :
    (dqNotebookInbound.filter fun c =>
      match c with
      | Channel.storeVar n => n == "setup_dependencies_passed"
      | _ => false) = [Channel.storeVar "setup_dependencies_passed"] ∧
    Channel.storeVar "setup_dependencies_passed" ∈ setupNotebookPersists ∧
    (dqNotebook.filter (isOpName "store_restore")).map NotebookOp.args =
      [["setup_dependencies_passed"]] ∧
    ((dqNotebookInbound ++ rlhfNotebookInbound).all
      Channel.isPersisted) = true ∧
    (setupNotebookPersists.all Channel.isPersisted) = true := by
  decide
